import Mathlib

/-!
Verification of the FinancePro financial-calculation engine.

The JavaScript sources (js/utils.js, js/constants.js, js/uiUtils.js) are
shallowly embedded below.  JavaScript numbers are modelled as exact
rationals (`ℚ`); `Number(x.toFixed(d))` is modelled as rounding to the
nearest multiple of `10^(-d)` with ties away from zero (this agrees with
ECMAScript `toFixed` on every non-negative argument and on every
non-tie negative argument; non-finite values — `NaN`, `Infinity` — are
outside the rational model).  Division by zero in `ℚ` yields `0`, whereas
JavaScript yields a non-finite value; every theorem below is stated away
from such points.
-/

namespace FinancePro

/-! ### Rounding: the model of `Number(x.toFixed(d))` -/

/-- Round a rational to the nearest integer, ties away from zero. -/
def jsRound (q : ℚ) : ℤ :=
  if 0 ≤ q then ⌊q + 1/2⌋ else -⌊-q + 1/2⌋

/-- `Number(x.toFixed(d))` over exact rationals. -/
def roundTo (d : ℕ) (q : ℚ) : ℚ :=
  (jsRound (q * 10 ^ d) : ℚ) / 10 ^ d

/-- `Number(x.toFixed(2))` over exact rationals. -/
def round2 (q : ℚ) : ℚ := roundTo 2 q

/-! ### js/utils.js : the calculation functions -/

/-- Embedding of `calculateCompoundInterest(principal, rate, time, frequency)`:
`Number((principal * Math.pow(1 + rate/frequency, frequency*time)).toFixed(2))`.
`time` and `frequency` are taken as naturals so that `Math.pow` is iterated
multiplication (the claims under verification use integer years and an
integer compounding frequency). -/
def calculateCompoundInterest (principal rate : ℚ) (time frequency : ℕ) : ℚ :=
  round2 (principal * (1 + rate / frequency) ^ (frequency * time))

/-- Embedding of `calculateMonthlyPayment(principal, rate, months)`:
if `rate === 0` return `principal / months` (no rounding); otherwise
`monthlyRate = rate/12` and the payment formula rounded with `toFixed(2)`.
The source performs no input validation. -/
def calculateMonthlyPayment (principal rate : ℚ) (months : ℕ) : ℚ :=
  if rate = 0 then principal / (months : ℚ)
  else
    let monthlyRate := rate / 12
    round2 (principal * (monthlyRate * (1 + monthlyRate) ^ months) /
      ((1 + monthlyRate) ^ months - 1))

/-- Embedding of `calculatePercentage(value, total, decimals)`:
`if (total === 0) return 0; return Number(((value/total)*100).toFixed(decimals))`.
The JavaScript default for `decimals` is `2`; it is passed explicitly here. -/
def calculatePercentage (value total : ℚ) (decimals : ℕ) : ℚ :=
  if total = 0 then 0 else roundTo decimals ((value / total) * 100)

/-! ### js/utils.js : `sanitizeNumber` and its `parseFloat` model -/

/-- A JavaScript value as it reaches `sanitizeNumber`: `FormData.get`
yields `null` or a string; numeric callers pass finite numbers. -/
inductive JSValue where
  | null
  | undefined
  | str (s : String)
  | num (q : ℚ)
deriving DecidableEq

def isDigitCh (c : Char) : Bool := '0' ≤ c && c ≤ '9'

/-- Consume a run of decimal digits, extending the accumulated value `n`
(count of digits consumed so far in `k`); returns value, count, rest. -/
def takeDigits : List Char → ℕ → ℕ → ℕ × ℕ × List Char
  | [], n, k => (n, k, [])
  | c :: cs, n, k =>
    if isDigitCh c then takeDigits cs (10 * n + (c.toNat - 48)) (k + 1)
    else (n, k, c :: cs)

/-- Optional sign; `true` means negative. -/
def parseSign : List Char → Bool × List Char
  | '-' :: cs => (true, cs)
  | '+' :: cs => (false, cs)
  | cs => (false, cs)

/-- Optional exponent part `e`/`E`, sign, digits; an exponent with no
digits is not part of the longest valid prefix, so it contributes `0`. -/
def parseExponent : List Char → ℤ
  | c :: cs =>
    if c = 'e' || c = 'E' then
      let sr := parseSign cs
      let dr := takeDigits sr.2 0 0
      if dr.2.1 = 0 then 0
      else if sr.1 then -(dr.1 : ℤ) else (dr.1 : ℤ)
    else 0
  | [] => 0

def isWsCh (c : Char) : Bool := c = ' ' || c = '\t' || c = '\n' || c = '\r'

/-- Model of JavaScript `parseFloat`: skip leading whitespace, read the
longest prefix that is a signed decimal literal (integer part, optional
fraction, optional exponent), and return `none` (JavaScript `NaN`) when
no digits are present.  The non-finite `Infinity` literal is outside the
rational model. -/
def parseFloat (s : String) : Option ℚ :=
  let cs := s.toList.dropWhile isWsCh
  let sr := parseSign cs
  let ir := takeDigits sr.2 0 0
  let fr : ℕ × ℕ × List Char :=
    match ir.2.2 with
    | '.' :: rest => takeDigits rest 0 0
    | other => (0, 0, other)
  if ir.2.1 = 0 ∧ fr.2.1 = 0 then none
  else
    let e := parseExponent fr.2.2
    let mant : ℚ := (ir.1 : ℚ) + (fr.1 : ℚ) / 10 ^ fr.2.1
    let v : ℚ :=
      if 0 ≤ e then mant * 10 ^ e.toNat else mant / 10 ^ (-e).toNat
    some (if sr.1 then -v else v)

/-- `String(value).replace(/,/g, '')`: all commas removed. -/
def stripCommas (s : String) : String :=
  ⟨s.toList.filter (fun c => c ≠ ',')⟩

/-- Embedding of `sanitizeNumber(value, defaultValue)`:
`null`, `undefined` and `''` return the default; otherwise
`parseFloat(String(value).replace(/,/g,''))`, with the default on `NaN`.
For a finite number input, `parseFloat(String(q))` round-trips to `q`. -/
def sanitizeNumber (v : JSValue) (defaultValue : ℚ) : ℚ :=
  match v with
  | .null => defaultValue
  | .undefined => defaultValue
  | .str s =>
    if s = "" then defaultValue
    else
      match parseFloat (stripCommas s) with
      | none => defaultValue
      | some q => q
  | .num q => q

/-! ### js/constants.js : tax tables -/

structure TaxBracket where
  min : ℚ
  /-- `none` encodes the source's `Infinity` upper bound. -/
  max : Option ℚ
  rate : ℚ
deriving DecidableEq

def TAX_BRACKETS_2024 : List TaxBracket :=
  [⟨0, some 11000, 0.10⟩,
   ⟨11000, some 44725, 0.12⟩,
   ⟨44725, some 95375, 0.22⟩,
   ⟨95375, some 182050, 0.24⟩,
   ⟨182050, some 231250, 0.32⟩,
   ⟨231250, some 578125, 0.35⟩,
   ⟨578125, none, 0.37⟩]

def STATE_TAX_RATES : List (String × ℚ) :=
  [("AL", 0.05), ("AR", 0.049), ("AZ", 0.025), ("CA", 0.07), ("CO", 0.044),
   ("CT", 0.05), ("DC", 0.06), ("DE", 0.052), ("GA", 0.047), ("HI", 0.07),
   ("IA", 0.05), ("ID", 0.056), ("IL", 0.0495), ("IN", 0.0315), ("KS", 0.052),
   ("KY", 0.045), ("LA", 0.045), ("MA", 0.05), ("MD", 0.055), ("ME", 0.058),
   ("MI", 0.0425), ("MN", 0.058), ("MO", 0.048), ("MS", 0.05), ("MT", 0.055),
   ("NC", 0.0475), ("ND", 0.02), ("NE", 0.05), ("NJ", 0.055), ("NM", 0.049),
   ("NY", 0.058), ("OH", 0.0275), ("OK", 0.0475), ("OR", 0.075), ("PA", 0.0307),
   ("RI", 0.05), ("SC", 0.053), ("UT", 0.0465), ("VA", 0.05), ("VT", 0.06),
   ("WI", 0.053), ("WV", 0.05)]

def NO_TAX_STATES : List String :=
  ["AK", "FL", "NV", "NH", "SD", "TN", "TX", "WA", "WY"]

/-- A gross figure `x` falls inside bracket `b`: at least the lower bound
and strictly below the upper bound when one exists. -/
def bracketContains (b : TaxBracket) (x : ℚ) : Prop :=
  b.min ≤ x ∧ match b.max with
    | none => True
    | some m => x < m

/-! ### js/uiUtils.js : the income form handler -/

/-- Outcome of `handleIncomeSubmit`: either an error notification
(`showError`, the InvalidInput channel) or the values handed to
`dataManager.calculateAnnualIncome` / `calculateAllTaxes` — those two
functions live in js/dataManager.js, outside the embedded sources, and
receive values only on the `proceed` path. -/
inductive IncomeSubmitResult where
  | invalidInput (msg : String)
  | proceed (payAmount : ℚ) (frequency : Option String)
      (hoursPerDay daysPerWeek weeksPerYear : ℚ) (zipcode : String)
deriving DecidableEq

/-- `FormData.get` yields the field's string or `null`. -/
def formVal : Option String → JSValue
  | none => .null
  | some s => .str s

/-- The regex `^\d{5}(-\d{4})?$`. -/
def validZip (s : String) : Bool :=
  let cs := s.toList
  (cs.length = 5 && cs.all isDigitCh) ||
    (match cs.splitAt 5 with
     | (h, '-' :: t) => h.length = 5 && h.all isDigitCh &&
         t.length = 4 && t.all isDigitCh
     | _ => false)

/-- Embedding of `handleIncomeSubmit`'s validation and dispatch:
sanitize the numeric fields, reject `payAmount ≤ 0`, reject a missing,
empty or malformed ZIP code, and only then proceed to the tax
computation with the sanitized values. -/
def handleIncomeSubmit (payAmount payFrequency hoursPerDay daysPerWeek
    weeksPerYear zipcode : Option String) : IncomeSubmitResult :=
  let pay := sanitizeNumber (formVal payAmount) 0
  let hpd := sanitizeNumber (formVal hoursPerDay) 0
  let dpw := sanitizeNumber (formVal daysPerWeek) 0
  let wpy := sanitizeNumber (formVal weeksPerYear) 0
  if pay ≤ 0 then .invalidInput "Please enter a valid pay amount."
  else
    match zipcode.map String.trim with
    | none => .invalidInput "Please enter a valid 5-digit ZIP code."
    | some z =>
      if z = "" || !validZip z then
        .invalidInput "Please enter a valid 5-digit ZIP code."
      else .proceed pay payFrequency hpd dpw wpy z

/-! ### Helper lemmas on the rounding model -/

lemma jsRound_intCast (n : ℤ) : jsRound (n : ℚ) = n := by
  unfold jsRound
  by_cases h : (0 : ℚ) ≤ (n : ℚ)
  · rw [if_pos h, Int.floor_int_add]
    norm_num
  · rw [if_neg h]
    rw [show (-(n : ℚ) + 1/2) = ((-n : ℤ) : ℚ) + (1/2 : ℚ) by push_cast; ring,
      Int.floor_int_add]
    norm_num

lemma jsRound_nearest (q : ℚ) : |(jsRound q : ℚ) - q| ≤ 1/2 := by
  unfold jsRound
  by_cases h : 0 ≤ q
  · rw [if_pos h, abs_le]
    constructor
    · have := Int.lt_floor_add_one (q + 1/2)
      push_cast at this ⊢
      linarith
    · have := Int.floor_le (q + 1/2)
      push_cast at this ⊢
      linarith
  · rw [if_neg h, abs_le]
    constructor
    · have := Int.floor_le (-q + 1/2)
      push_cast at this ⊢
      linarith
    · have := Int.lt_floor_add_one (-q + 1/2)
      push_cast at this ⊢
      linarith

lemma jsRound_half_away (n : ℕ) :
    jsRound ((n : ℚ) + 1/2) = (n : ℤ) + 1 ∧
    jsRound (-((n : ℚ) + 1/2)) = -((n : ℤ) + 1) := by
  constructor
  · unfold jsRound
    rw [if_pos (by positivity)]
    rw [show ((n : ℚ) + 1/2 + 1/2) = (((n : ℤ) + 1 : ℤ) : ℚ) by push_cast; ring,
      Int.floor_intCast]
  · unfold jsRound
    rw [if_neg (by
      rw [not_le]
      have h : (0 : ℚ) < (n : ℚ) + 1/2 := by positivity
      linarith)]
    rw [show (-(-((n : ℚ) + 1/2)) + 1/2) = (((n : ℤ) + 1 : ℤ) : ℚ) by
      push_cast; ring, Int.floor_intCast]

lemma round2_eq (q : ℚ) : round2 q = (jsRound (q * 100) : ℚ) / 100 := by
  unfold round2 roundTo
  norm_num

lemma round2_cents (n : ℤ) : round2 ((n : ℚ) / 100) = (n : ℚ) / 100 := by
  rw [round2_eq]
  rw [show ((n : ℚ) / 100 * 100) = (n : ℚ) by field_simp]
  rw [jsRound_intCast]

/-! ### Claim theorems -/

/-- C1: for every loan input with `annualRate ≠ 0` (principal > 0,
termMonths > 0, annualRate ≥ 0), `calculateMonthlyPayment` returns
`principal × (r × (1+r)^n) / ((1+r)^n − 1)` with `r = annualRate/12`
and `n = termMonths`, rounded to 2 decimal places. -/
theorem monthlyPayment_nonzero_rate (p r : ℚ) (n : ℕ)
    (_hp : 0 < p) (_hr : 0 ≤ r) (hr0 : r ≠ 0) (_hn : 0 < n) :
    calculateMonthlyPayment p r n =
      round2 (p * ((r/12) * (1 + r/12) ^ n) / ((1 + r/12) ^ n - 1)) := by
  unfold calculateMonthlyPayment
  rw [if_neg hr0]

theorem monthlyPayment_nonzero_rate_witness :
    0 < (1000 : ℚ) ∧ (0 : ℚ) ≤ 1/10 ∧ (1/10 : ℚ) ≠ 0 ∧ 0 < 12 ∧
    calculateMonthlyPayment 1000 (1/10) 12 =
      round2 (1000 * ((1/10/12) * (1 + 1/10/12) ^ 12) /
        ((1 + 1/10/12) ^ 12 - 1)) :=
  ⟨by norm_num, by norm_num, by norm_num, by norm_num,
    monthlyPayment_nonzero_rate 1000 (1/10) 12 (by norm_num) (by norm_num)
      (by norm_num) (by norm_num)⟩

/-- C2 counterexample: `calculateMonthlyPayment` performs no validation
at all — at `principal = -1000 ≤ 0` (rate 0, 12 months) it returns the
ordinary numeric result `-1000/12 = -250/3`, not an `InvalidInput`
failure. -/
theorem monthlyPayment_accepts_nonpositive_cex :
    calculateMonthlyPayment (-1000) 0 12 = -250/3 ∧
    calculateMonthlyPayment (-1000) 0 12 < 0 := by
  constructor <;> norm_num [calculateMonthlyPayment]

/-- C2 amended: `calculateMonthlyPayment` performs no input validation;
for `principal ≤ 0` with rate 0 and `termMonths > 0` it returns
`principal / termMonths` — a non-positive number — rather than failing
with `InvalidInput`. -/
theorem monthlyPayment_no_validation (p : ℚ) (n : ℕ)
    (hp : p ≤ 0) (hn : 0 < n) :
    calculateMonthlyPayment p 0 n = p / (n : ℚ) ∧
    calculateMonthlyPayment p 0 n ≤ 0 := by
  have hform : calculateMonthlyPayment p 0 n = p / (n : ℚ) := by
    simp [calculateMonthlyPayment]
  refine ⟨hform, ?_⟩
  rw [hform]
  apply div_nonpos_of_nonpos_of_nonneg hp
  positivity

theorem monthlyPayment_no_validation_witness :
    (-1000 : ℚ) ≤ 0 ∧ 0 < 10 ∧
    calculateMonthlyPayment (-1000) 0 10 = -1000 / 10 ∧
    calculateMonthlyPayment (-1000) 0 10 ≤ 0 :=
  ⟨by norm_num, by norm_num,
    (monthlyPayment_no_validation (-1000) 10 (by norm_num) (by norm_num)).1,
    (monthlyPayment_no_validation (-1000) 10 (by norm_num) (by norm_num)).2⟩

/-- C4: when `annualRate = 0` (principal > 0, termMonths > 0),
`calculateMonthlyPayment` returns `principal / termMonths` exactly
(no rounding in that branch); in particular on principal 1000, rate 0,
10 months it returns exactly 100. -/
theorem monthlyPayment_zero_rate :
    (∀ (p : ℚ) (n : ℕ), 0 < p → 0 < n →
      calculateMonthlyPayment p 0 n = p / (n : ℚ)) ∧
    calculateMonthlyPayment 1000 0 10 = 100 := by
  constructor
  · intro p n _ _
    simp [calculateMonthlyPayment]
  · norm_num [calculateMonthlyPayment]

theorem monthlyPayment_zero_rate_witness :
    0 < (1000 : ℚ) ∧ 0 < 10 ∧ calculateMonthlyPayment 1000 0 10 = 1000 / 10 :=
  ⟨by norm_num, by norm_num,
    monthlyPayment_zero_rate.1 1000 10 (by norm_num) (by norm_num)⟩

/-- C3: for every growth input with principal ≥ 0 and frequency ≥ 1 (and
natural years), `calculateCompoundInterest` returns
`principal × (1 + annualRate/frequency)^(frequency × years)` rounded to
2 decimal places, where the rounding is to the nearest integer number of
hundredths (`jsRound` is within 1/2 of its argument) with ties away from
zero. -/
theorem compoundInterest_formula (p r : ℚ) (t f : ℕ)
    (_hp : 0 ≤ p) (_hf : 1 ≤ f) :
    calculateCompoundInterest p r t f =
      (jsRound (p * (1 + r / f) ^ (f * t) * 100) : ℚ) / 100 ∧
    (∀ q : ℚ, |(jsRound q : ℚ) - q| ≤ 1/2) ∧
    (∀ m : ℕ, jsRound ((m : ℚ) + 1/2) = (m : ℤ) + 1 ∧
      jsRound (-((m : ℚ) + 1/2)) = -((m : ℤ) + 1)) :=
  ⟨by rw [calculateCompoundInterest, round2_eq], jsRound_nearest,
    jsRound_half_away⟩

theorem compoundInterest_formula_witness :
    (0 : ℚ) ≤ 1000 ∧ 1 ≤ 12 ∧
    calculateCompoundInterest 1000 (1/20) 2 12 =
      (jsRound (1000 * (1 + (1/20) / 12) ^ (12 * 2) * 100) : ℚ) / 100 :=
  ⟨by norm_num, by norm_num,
    (compoundInterest_formula 1000 (1/20) 2 12 (by norm_num) (by norm_num)).1⟩

/-- C5 counterexample: with `annualRate = 0` the code still rounds —
`calculateCompoundInterest 0.005 0 5 12` returns `0.01`, not the
principal `0.005` unchanged. -/
theorem compoundInterest_rounds_principal_cex :
    calculateCompoundInterest (1/200) 0 5 12 = 1/100 ∧
    (1/100 : ℚ) ≠ 1/200 := by
  constructor
  · have h1 : calculateCompoundInterest (1/200) 0 5 12 = round2 (1/200) := by
      simp [calculateCompoundInterest]
    have h3 : jsRound ((1 : ℚ)/2) = 1 := by
      have h := (jsRound_half_away 0).1
      norm_num at h
      exact h
    rw [h1, round2_eq, show ((1 : ℚ)/200 * 100) = (1 : ℚ)/2 by norm_num, h3]
    norm_num
  · norm_num

/-- C5 amended: when `annualRate = 0` or `years = 0` (frequency ≥ 1),
`calculateCompoundInterest` returns the principal rounded to 2 decimal
places (`round2 principal`); this equals the principal exactly whenever
the principal is a whole number of hundredths — in particular on
principal 1000, rate 0, 5 years, frequency 12 it returns exactly 1000. -/
theorem compoundInterest_zero_rate (p r : ℚ) (t f : ℕ) (_hf : 0 < f) :
    calculateCompoundInterest p 0 t f = round2 p ∧
    calculateCompoundInterest p r 0 f = round2 p ∧
    ((∃ m : ℤ, p = (m : ℚ) / 100) → calculateCompoundInterest p 0 t f = p) ∧
    calculateCompoundInterest 1000 0 5 12 = 1000 := by
  have hz : ∀ (p' : ℚ) (t' f' : ℕ),
      calculateCompoundInterest p' 0 t' f' = round2 p' := by
    intro p' t' f'
    simp [calculateCompoundInterest]
  refine ⟨hz p t f, ?_, ?_, ?_⟩
  · simp [calculateCompoundInterest]
  · rintro ⟨m, hm⟩
    rw [hz p t f, hm, round2_cents]
  · rw [hz 1000 5 12]
    have h := round2_cents 100000
    norm_num at h
    exact h

theorem compoundInterest_zero_rate_witness :
    0 < 12 ∧ calculateCompoundInterest 1000 0 5 12 = 1000 :=
  ⟨by norm_num, (compoundInterest_zero_rate 1000 (1/2) 5 12 (by norm_num)).2.2.2⟩

/-- C8: `calculatePercentage` returns 0 when the total is 0 (no division
by zero), and otherwise `(value/total) × 100` rounded to the requested
number of decimals. -/
theorem percentage_division_safe :
    (∀ (v : ℚ) (d : ℕ), calculatePercentage v 0 d = 0) ∧
    (∀ (v t : ℚ) (d : ℕ), t ≠ 0 →
      calculatePercentage v t d = roundTo d ((v / t) * 100)) := by
  constructor
  · intro v d
    simp [calculatePercentage]
  · intro v t d ht
    rw [calculatePercentage, if_neg ht]

theorem percentage_division_safe_witness :
    (4 : ℚ) ≠ 0 ∧ calculatePercentage 1 4 2 = roundTo 2 ((1 / 4 : ℚ) * 100) :=
  ⟨by norm_num, percentage_division_safe.2 1 4 2 (by norm_num)⟩

/-- C6: the federal bracket table satisfies the TaxBracket invariant:
every bracket has lowerBound ≥ 0, upperBound > lowerBound (the last
unbounded), rate ∈ [0,1]; the brackets are sorted ascending, contiguous
(each upper bound is the next lower bound), start at 0, end unbounded,
and consequently cover [0, ∞) with non-overlapping ranges. -/
theorem taxBrackets_invariant :
    (∀ b ∈ TAX_BRACKETS_2024, 0 ≤ b.min ∧ 0 ≤ b.rate ∧ b.rate ≤ 1 ∧
      (match b.max with | none => True | some m => b.min < m)) ∧
    List.Chain' (fun a b => a.max = some b.min) TAX_BRACKETS_2024 ∧
    List.Chain' (fun a b => a.min < b.min) TAX_BRACKETS_2024 ∧
    (∃ b, TAX_BRACKETS_2024.head? = some b ∧ b.min = 0) ∧
    (∃ b, TAX_BRACKETS_2024.getLast? = some b ∧ b.max = none) ∧
    (∀ x : ℚ, 0 ≤ x → ∃ b ∈ TAX_BRACKETS_2024, bracketContains b x) := by
  refine ⟨?_, ?_, ?_, ?_, ?_, ?_⟩
  · intro b hb
    fin_cases hb <;> norm_num [TAX_BRACKETS_2024]
  · norm_num [TAX_BRACKETS_2024, List.chain'_cons]
  · norm_num [TAX_BRACKETS_2024, List.chain'_cons]
  · exact ⟨⟨0, some 11000, 0.10⟩, by norm_num [TAX_BRACKETS_2024], rfl⟩
  · exact ⟨⟨578125, none, 0.37⟩, by norm_num [TAX_BRACKETS_2024], rfl⟩
  · intro x hx
    by_cases h1 : x < 11000
    · exact ⟨⟨0, some 11000, 0.10⟩, by norm_num [TAX_BRACKETS_2024], hx, h1⟩
    by_cases h2 : x < 44725
    · exact ⟨⟨11000, some 44725, 0.12⟩, by norm_num [TAX_BRACKETS_2024],
        not_lt.mp h1, h2⟩
    by_cases h3 : x < 95375
    · exact ⟨⟨44725, some 95375, 0.22⟩, by norm_num [TAX_BRACKETS_2024],
        not_lt.mp h2, h3⟩
    by_cases h4 : x < 182050
    · exact ⟨⟨95375, some 182050, 0.24⟩, by norm_num [TAX_BRACKETS_2024],
        not_lt.mp h3, h4⟩
    by_cases h5 : x < 231250
    · exact ⟨⟨182050, some 231250, 0.32⟩, by norm_num [TAX_BRACKETS_2024],
        not_lt.mp h4, h5⟩
    by_cases h6 : x < 578125
    · exact ⟨⟨231250, some 578125, 0.35⟩, by norm_num [TAX_BRACKETS_2024],
        not_lt.mp h5, h6⟩
    · exact ⟨⟨578125, none, 0.37⟩, by norm_num [TAX_BRACKETS_2024],
        not_lt.mp h6, trivial⟩

theorem taxBrackets_invariant_witness :
    (0 : ℚ) ≤ 50000 ∧ ∃ b ∈ TAX_BRACKETS_2024, bracketContains b 50000 :=
  ⟨by norm_num, taxBrackets_invariant.2.2.2.2.2 50000 (by norm_num)⟩

/-- If a key has an entry in an association list then it is among the
mapped-out keys. -/
lemma lookup_mem_keys {l : List (String × ℚ)} {k : String}
    (h : (l.lookup k).isSome = true) : k ∈ l.map Prod.fst := by
  induction l with
  | nil => simp [List.lookup] at h
  | cons p l ih =>
    by_cases hk : k = p.1
    · simp [hk]
    · have hb : (k == p.1) = false := beq_eq_false_iff_ne.mpr hk
      rw [List.lookup, hb] at h
      simp only [List.map_cons, List.mem_cons]
      exact Or.inr (ih h)

/-- C9: the flat state-rate table and the zero-tax state set are
disjoint — a region key with a flat rate is never also a zero-tax
state, so every known region has exactly one state-tax treatment. -/
theorem stateTax_noTax_disjoint (k : String)
    (h : (STATE_TAX_RATES.lookup k).isSome = true) :
    k ∉ NO_TAX_STATES := by
  have hmem := lookup_mem_keys h
  have hall : ∀ x ∈ STATE_TAX_RATES.map Prod.fst, x ∉ NO_TAX_STATES := by
    decide
  exact hall k hmem

theorem stateTax_noTax_disjoint_witness :
    (STATE_TAX_RATES.lookup "CA").isSome = true ∧ "CA" ∉ NO_TAX_STATES :=
  ⟨by decide, stateTax_noTax_disjoint "CA" (by decide)⟩

/-- C7: when the pay field parses to a negative number, is absent, or is
non-numeric, `handleIncomeSubmit` rejects the submission with the
InvalidInput notification before any tax computation: the result is an
`invalidInput` message, never the `proceed` payload that feeds
`calculateAnnualIncome` / `calculateAllTaxes`. -/
theorem incomeSubmit_rejects_bad_pay
    (pa freq hpd dpw wpy zip : Option String)
    (h : (∃ s q, pa = some s ∧ parseFloat (stripCommas s) = some q ∧ q < 0) ∨
      pa = none ∨ (∃ s, pa = some s ∧ parseFloat (stripCommas s) = none)) :
    ∃ msg, handleIncomeSubmit pa freq hpd dpw wpy zip = .invalidInput msg := by
  have hle : sanitizeNumber (formVal pa) 0 ≤ 0 := by
    rcases h with ⟨s, q, rfl, hp, hq⟩ | rfl | ⟨s, rfl, hp⟩
    · by_cases hs : s = ""
      · subst hs
        rw [show parseFloat (stripCommas "") = none from rfl] at hp
        cases hp
      · simp only [formVal, sanitizeNumber, if_neg hs, hp]
        exact le_of_lt hq
    · simp [formVal, sanitizeNumber]
    · by_cases hs : s = ""
      · subst hs
        simp [formVal, sanitizeNumber]
      · simp [formVal, sanitizeNumber, hs, hp]
  refine ⟨"Please enter a valid pay amount.", ?_⟩
  simp only [handleIncomeSubmit]
  rw [if_pos hle]

theorem incomeSubmit_rejects_bad_pay_witness :
    ((none : Option String) = none) ∧
    ∃ msg, handleIncomeSubmit none none none none none (some "12345") =
      .invalidInput msg :=
  ⟨rfl, incomeSubmit_rejects_bad_pay none none none none none (some "12345")
    (Or.inr (Or.inl rfl))⟩

/-- The value `sanitizeNumber` is specified to extract, per the spec's
reading: `none` for `null`, `undefined`, the empty string, or a string
with no parseable number (commas stripped); otherwise the parsed value
(a finite number input passes through unchanged). -/
def specParse : JSValue → Option ℚ
  | .null => none
  | .undefined => none
  | .str s => if s = "" then none else parseFloat (stripCommas s)
  | .num q => some q

/-- C10: `sanitizeNumber` is total over the rational model (so never
NaN): it returns the parsed numeric value of the input with commas
stripped, and returns the supplied default exactly in the cases where
the input is `null`, `undefined`, the empty string, or fails to parse
as a number. -/
theorem sanitizeNumber_total_spec (v : JSValue) (d : ℚ) :
    sanitizeNumber v d = (specParse v).getD d ∧
    (specParse v = none ↔
      v = .null ∨ v = .undefined ∨ v = .str "" ∨
      ∃ s, v = .str s ∧ parseFloat (stripCommas s) = none) := by
  constructor
  · cases v with
    | null => rfl
    | undefined => rfl
    | str s =>
      by_cases hs : s = ""
      · subst hs
        simp [sanitizeNumber, specParse]
      · simp only [sanitizeNumber, specParse, if_neg hs]
        cases h : parseFloat (stripCommas s) <;> simp [h]
    | num q => rfl
  · cases v with
    | null => simp [specParse]
    | undefined => simp [specParse]
    | str s =>
      by_cases hs : s = ""
      · subst hs
        simp [specParse]
      · simp [specParse, hs]
    | num q => simp [specParse]

end FinancePro
